import Mathlib

/-!
Verification of the `Moon` astronomical-data adapter (`src/utils/moon.ts`) of the
lunar-phase-card repository.

The adapter is a pure transformer: it takes raw astronomical quantities (angles,
distances, timestamps) coming from the external `SunCalc` library together with
presentation preferences (language, 12/24-hour clock, metric/imperial) and produces
formatted display items, an image selection with a rotation angle, and a 48-sample
altitude-over-time series.

Modelling conventions:
* JS numbers are modelled as rationals (`ℚ`); the arithmetic the adapter performs is
  exact on the inputs the claims quantify over.
* Instants (JS `Date` values / epoch milliseconds) are modelled as `ℤ`.
* External collaborators (the `SunCalc` sampling functions, the localization table,
  locale-aware number formatting, `toLocaleDateString`) are passed in as function
  parameters: the adapter only pipes their outputs through.
* JS `Math.round` rounds half toward `+∞`; `Number.prototype.toFixed` picks the closer
  scaled integer and the larger one on ties; JS `%` is the truncating remainder
  (`Int.tmod`); an out-of-range JS array access yields `undefined`, modelled as `none`.
-/

/-- JS `Math.round`: the nearest integer, with halves rounded toward `+∞`. -/
def jsRound (x : ℚ) : ℤ := ⌊x + 1 / 2⌋

/-- JS `Number(x.toFixed(2))`: `x` rounded to two decimal places (nearest scaled integer,
ties toward the larger candidate, i.e. toward `+∞`, matching `Math.round` at scale 100). -/
def toFixed2 (x : ℚ) : ℚ := (jsRound (x * 100) : ℚ) / 100

/-- JS `Math.PI`: the IEEE-754 double closest to π, an exact rational. -/
def mathPI : ℚ := 884279719003555 / 281474976710656

/-- JS `Math.max(...)` over a spread argument list (the adapter always passes the 48
profile values, so the list is never empty; JS would give `-Infinity` on `[]`). -/
def jsMax : List ℚ → ℚ
  | [] => 0
  | x :: xs => xs.foldl max x

/-- JS `Math.min(...)` over a spread argument list (see `jsMax`). -/
def jsMin : List ℚ → ℚ
  | [] => 0
  | x :: xs => xs.foldl min x

/-- The 9-entry compass lookup table of `_convertCardinal` (moon.ts line 236): the
8 compass points followed by a second `"N"`. -/
def cardinalPoints : List String := ["N", "NE", "E", "SE", "S", "SW", "W", "NW", "N"]

/-- `_convertCardinal` (moon.ts lines 235-238): `cardinalPoints[Math.round(degrees / 45)]`.
The JS index expression carries no modulo and no bounds check, so an index outside
`0..8` returns `undefined`, modelled as `none`. -/
def _convertCardinal (degrees : ℚ) : Option String :=
  if jsRound (degrees / 45) < 0 then none
  else cardinalPoints.get? (jsRound (degrees / 45)).toNat

/-- The fixed 8-point compass table named by the spec. -/
def compassTable8 : List String := ["N", "NE", "E", "SE", "S", "SW", "W", "NW"]

/-- The spec's formula for `cardinalDirection`: the 8-point compass table indexed by
`round(azimuth / 45) mod 8` (mathematical modulus, hence the wraparound at 360°). -/
def cardinalDirectionSpec (degrees : ℚ) : Option String :=
  compassTable8.get? (jsRound (degrees / 45) % 8).toNat

/-- Helper: `jsRound` evaluated from floor bounds. -/
theorem jsRound_eq (x : ℚ) (n : ℤ) (h1 : (n : ℚ) ≤ x + 1 / 2) (h2 : x + 1 / 2 < n + 1) :
    jsRound x = n := by
  unfold jsRound
  exact Int.floor_eq_iff.mpr ⟨h1, by exact_mod_cast h2⟩

/-- Helper: `_convertCardinal` rewritten through a known value of the rounded index. -/
theorem convertCardinal_eval (az : ℚ) (n : ℤ) (h : jsRound (az / 45) = n) :
    _convertCardinal az = if n < 0 then none else cardinalPoints.get? n.toNat := by
  unfold _convertCardinal
  rw [h]

/-- Claim C2: for every azimuth in `[0, 360]` degrees, `_convertCardinal` agrees with the
spec's formula (the fixed 8-point compass table at index `round(azimuth / 45) mod 8`),
and both 0° and 360° resolve to `"N"` (wraparound). -/
theorem convertCardinal_matches_8point_table :
    (∀ az : ℚ, 0 ≤ az → az ≤ 360 → _convertCardinal az = cardinalDirectionSpec az) ∧
    _convertCardinal 0 = some "N" ∧ _convertCardinal 360 = some "N" := by
  refine ⟨?_, ?_, ?_⟩
  · intro az h0 h1
    have hlo : 0 ≤ jsRound (az / 45) := by
      unfold jsRound
      apply Int.le_floor.mpr
      push_cast
      linarith
    have hhi : jsRound (az / 45) ≤ 8 := by
      have h9 : jsRound (az / 45) < 9 := by
        unfold jsRound
        apply Int.floor_lt.mpr
        push_cast
        linarith
      omega
    obtain ⟨n, hn⟩ : ∃ n : ℤ, jsRound (az / 45) = n := ⟨_, rfl⟩
    rw [hn] at hlo hhi
    rw [convertCardinal_eval az n hn]
    unfold cardinalDirectionSpec
    rw [hn]
    interval_cases n <;> rfl
  · rw [convertCardinal_eval 0 0 (jsRound_eq _ 0 (by norm_num) (by norm_num))]
    rfl
  · rw [convertCardinal_eval 360 8 (jsRound_eq _ 8 (by norm_num) (by norm_num))]
    rfl

/-- Witness for C2: the general clause applied at azimuth 45°. -/
theorem convertCardinal_matches_8point_table_witness :
    _convertCardinal 45 = cardinalDirectionSpec 45 :=
  convertCardinal_matches_8point_table.1 45 (by norm_num) (by norm_num)

/-- Claim C3, counterexample: the code maps azimuth 44° to `"NE"`, not `"N"` as the claim
states (`Math.round(44 / 45) = 1`, since `44/45 ≈ 0.978 ≥ 0.5`). -/
theorem convertCardinal_44_counterexample :
    _convertCardinal 44 ≠ some "N" ∧ _convertCardinal 44 = some "NE" := by
  have h : _convertCardinal 44 = some "NE" := by
    rw [convertCardinal_eval 44 1 (jsRound_eq _ 1 (by norm_num) (by norm_num))]
    rfl
  exact ⟨by rw [h]; decide, h⟩

/-- Claim C3, amended: both 44° and 46° map to `"NE"`; the `"N"` bucket boundary lies at
22.5°, with azimuths in `[0°, 22.5°)` giving `"N"` and azimuths in `[22.5°, 67.5°)`
giving `"NE"`. -/
theorem convertCardinal_boundary :
    _convertCardinal 44 = some "NE" ∧ _convertCardinal 46 = some "NE" ∧
    (∀ az : ℚ, 0 ≤ az → az < 45 / 2 → _convertCardinal az = some "N") ∧
    (∀ az : ℚ, 45 / 2 ≤ az → az < 135 / 2 → _convertCardinal az = some "NE") := by
  refine ⟨?_, ?_, ?_, ?_⟩
  · rw [convertCardinal_eval 44 1 (jsRound_eq _ 1 (by norm_num) (by norm_num))]
    rfl
  · rw [convertCardinal_eval 46 1 (jsRound_eq _ 1 (by norm_num) (by norm_num))]
    rfl
  · intro az h0 h1
    rw [convertCardinal_eval az 0 (jsRound_eq _ 0 (by push_cast; linarith)
      (by push_cast; linarith))]
    rfl
  · intro az h0 h1
    rw [convertCardinal_eval az 1 (jsRound_eq _ 1 (by push_cast; linarith)
      (by push_cast; linarith))]
    rfl

/-- Witness for the amended C3: the bucket clauses applied at 10° and 44°. -/
theorem convertCardinal_boundary_witness :
    _convertCardinal 10 = some "N" ∧ _convertCardinal 44 = some "NE" :=
  ⟨convertCardinal_boundary.2.2.1 10 (by norm_num) (by norm_num),
   convertCardinal_boundary.2.2.2 44 (by norm_num) (by norm_num)⟩

/-- Claim C10: the lookup table of `_convertCardinal` has exactly 9 entries with `"N"` at
both ends, and the rounded index is applied without modulo or bounds check: every azimuth
of at least 382.5° and every azimuth below −22.5° falls outside the table and yields no
compass point. -/
theorem convertCardinal_out_of_table :
    cardinalPoints.length = 9 ∧
    cardinalPoints.head? = some "N" ∧ cardinalPoints.getLast? = some "N" ∧
    (∀ az : ℚ, 765 / 2 ≤ az → _convertCardinal az = none) ∧
    (∀ az : ℚ, az < -45 / 2 → _convertCardinal az = none) := by
  refine ⟨rfl, rfl, rfl, ?_, ?_⟩
  · intro az h
    have h9 : 9 ≤ jsRound (az / 45) := by
      unfold jsRound
      apply Int.le_floor.mpr
      push_cast
      linarith
    unfold _convertCardinal
    rw [if_neg (by omega)]
    apply List.get?_eq_none.mpr
    have : cardinalPoints.length = 9 := rfl
    omega
  · intro az h
    have hneg : jsRound (az / 45) < 0 := by
      unfold jsRound
      apply Int.floor_lt.mpr
      push_cast
      linarith
    unfold _convertCardinal
    rw [if_pos hneg]

/-- Witness for C10: azimuths 400° and −45° produce no compass point. -/
theorem convertCardinal_out_of_table_witness :
    _convertCardinal 400 = none ∧ _convertCardinal (-45) = none :=
  ⟨convertCardinal_out_of_table.2.2.2.1 400 (by norm_num),
   convertCardinal_out_of_table.2.2.2.2 (-45) (by norm_num)⟩

/-- The `next` field of `SunCalc`'s illumination record: upcoming full/new-moon instants
(epoch milliseconds), as consumed by `moonData`. -/
structure IlluminationNext where
  fullMoon : Int
  newMoon : Int

/-- The slice of `SunCalc.IMoonData.illumination` the adapter consumes. -/
structure MoonIllumination where
  fraction : ℚ
  phaseValue : ℚ
  next : IlluminationNext

/-- The slice of `SunCalc.IMoonData` the adapter consumes: position scalars, the two
limb-orientation angles (radians) and the illumination record. Read-only input. -/
structure IMoonData where
  distance : ℚ
  azimuthDegrees : ℚ
  altitudeDegrees : ℚ
  zenithAngle : ℚ
  parallacticAngle : ℚ
  illumination : MoonIllumination

/-- The slice of `SunCalc.IMoonTimes` the adapter consumes. The highest-transit instant is
absent for some rise/set geometries, hence optional. -/
structure IMoonTimes where
  rise : Int
  set : Int
  highest : Option Int

/-- Modelled from the spec: `MOON_IMAGES` (src/utils/moon-pic.ts, not included under
src/) is the fixed list of the 31 predefined moon-phase image identifiers. -/
def MOON_IMAGES : List String := (List.range 31).map (fun i => "moon-image-" ++ toString i)

/-- The phase-image index of the `moonImage` getter (moon.ts line 101):
`Math.floor(phaseValue * 31) % 31`, with JS `%` the truncating remainder. -/
def phaseIndex (phaseValue : ℚ) : ℤ := Int.tmod ⌊phaseValue * 31⌋ 31

/-- The result of the `moonImage` getter: a picked image and the raw rotation angle. -/
structure MoonImage where
  moonPic : Option String
  rotateDeg : ℚ

/-- `moonImage` getter (moon.ts lines 100-108): picks `MOON_IMAGES[phaseIndex]` (a JS
lookup at a negative index would give `undefined`, modelled as `none`) and computes
`rotateDeg = (zenithAngle - parallacticAngle) * (180 / Math.PI)`. -/
def moonImage (d : IMoonData) : MoonImage :=
  { moonPic :=
      if phaseIndex d.illumination.phaseValue < 0 then none
      else MOON_IMAGES.get? (phaseIndex d.illumination.phaseValue).toNat
    rotateDeg := (d.zenithAngle - d.parallacticAngle) * (180 / mathPI) }

/-- `_getMoonRotation` (moon.ts lines 110-114): the same rotation angle as `moonImage`. -/
def _getMoonRotation (d : IMoonData) : ℚ :=
  (d.zenithAngle - d.parallacticAngle) * (180 / mathPI)

/-- Claim C4: for every phase value in `[0, 1)`, the phase index
`floor(phaseValue * 31) mod 31` lies in `[0, 30]`, so `moonImage` always selects one of
the 31 predefined images. -/
theorem phaseIndex_in_range (d : IMoonData)
    (h0 : 0 ≤ d.illumination.phaseValue) (h1 : d.illumination.phaseValue < 1) :
    0 ≤ phaseIndex d.illumination.phaseValue ∧ phaseIndex d.illumination.phaseValue ≤ 30 ∧
    ∃ img, (moonImage d).moonPic = some img ∧ img ∈ MOON_IMAGES := by
  set pv := d.illumination.phaseValue with hpv
  have hf0 : 0 ≤ ⌊pv * 31⌋ := Int.le_floor.mpr (by push_cast; linarith)
  have hf1 : ⌊pv * 31⌋ < 31 := Int.floor_lt.mpr (by push_cast; linarith)
  have hidx : phaseIndex pv = ⌊pv * 31⌋ := by
    unfold phaseIndex
    rw [Int.tmod_eq_emod hf0 (by norm_num)]
    omega
  refine ⟨by omega, by omega, ?_⟩
  have hlen : MOON_IMAGES.length = 31 := by
    unfold MOON_IMAGES
    simp
  have hlt : (phaseIndex pv).toNat < MOON_IMAGES.length := by omega
  refine ⟨MOON_IMAGES.get ⟨(phaseIndex pv).toNat, hlt⟩, ?_, List.get_mem _ _ _⟩
  unfold moonImage
  simp only [← hpv]
  rw [if_neg (by omega), List.get?_eq_get hlt]

/-- Witness for C4: a concrete sample with phase value 1/2. -/
theorem phaseIndex_in_range_witness :
    ∃ img,
      (moonImage
        { distance := 384400, azimuthDegrees := 180, altitudeDegrees := 45,
          zenithAngle := 1, parallacticAngle := 0,
          illumination := { fraction := 1/2, phaseValue := 1/2,
                            next := { fullMoon := 0, newMoon := 0 } } }).moonPic = some img ∧
      img ∈ MOON_IMAGES :=
  (phaseIndex_in_range _ (by norm_num) (by norm_num)).2.2

/-- Claim C5: for every raw sample with a nonnegative phase value, `moonImage` picks the
image at index `floor(phaseValue * 31) mod 31` and returns the rotation angle
`(zenithAngle - parallacticAngle) * 180/π` exactly; `_getMoonRotation` computes the same
angle, and values beyond ±360° pass through unclamped (a sample whose angle difference is
3π yields exactly 540°). -/
theorem moonImage_formula (d : IMoonData) (h0 : 0 ≤ d.illumination.phaseValue) :
    (moonImage d).moonPic
        = MOON_IMAGES.get? (Int.tmod ⌊d.illumination.phaseValue * 31⌋ 31).toNat ∧
    (moonImage d).rotateDeg = (d.zenithAngle - d.parallacticAngle) * (180 / mathPI) ∧
    _getMoonRotation d = (d.zenithAngle - d.parallacticAngle) * (180 / mathPI) ∧
    (d.zenithAngle - d.parallacticAngle = 3 * mathPI → _getMoonRotation d = 540) := by
  have hf0 : 0 ≤ ⌊d.illumination.phaseValue * 31⌋ :=
    Int.le_floor.mpr (by push_cast; positivity)
  have hidx : 0 ≤ phaseIndex d.illumination.phaseValue := by
    unfold phaseIndex
    rw [Int.tmod_eq_emod hf0 (by norm_num)]
    exact Int.emod_nonneg _ (by norm_num)
  refine ⟨?_, rfl, rfl, ?_⟩
  · unfold moonImage
    rw [if_neg (by omega)]
    rfl
  · intro h
    unfold _getMoonRotation
    rw [h]
    have hne : mathPI ≠ 0 := by
      unfold mathPI
      norm_num
    field_simp
    ring

/-- Witness for C5: the concrete sample of `phaseIndex_in_range_witness`, with
`zenithAngle = 3 * Math.PI` and `parallacticAngle = 0`, rotates by exactly 540°. -/
theorem moonImage_formula_witness :
    _getMoonRotation
      { distance := 384400, azimuthDegrees := 180, altitudeDegrees := 45,
        zenithAngle := 3 * mathPI, parallacticAngle := 0,
        illumination := { fraction := 1/2, phaseValue := 1/2,
                          next := { fullMoon := 0, newMoon := 0 } } } = 540 :=
  (moonImage_formula _ (by norm_num)).2.2.2 (by norm_num)

/-- `blackBeforeUnit` (moon.ts lines 65-77): the separator inserted between a formatted
value and its unit. The character returned for `"%"` under the listed languages is the
plain ASCII space U+0020 — the same character as the generic separator. -/
def blackBeforeUnit (lang unit : String) : String :=
  if unit = "°" then ""
  else if unit = "%" then
    if lang ∈ ["cs", "de", "fi", "fr", "sk", "sv"] then " " else ""
  else " "

/-- A fully formatted display item (`MoonDataItem` in src/types.ts). -/
structure MoonDataItem where
  label : String
  value : String
  secondValue : String

/-- `createItem` (moon.ts lines 79-83). `localize` is the external localization
collaborator; a falsy (empty) unit appends nothing. -/
def createItem (localize : String → String) (lang : String)
    (label value unit secondValue : String) : MoonDataItem :=
  { label := localize ("card." ++ label)
    value := value ++ (if unit = "" then "" else blackBeforeUnit lang unit ++ unit)
    secondValue := secondValue }

/-- The hair (hairline) space character U+200A named by the claim. -/
def hairSpace : String := " "

/-- Claim C8, counterexample: for language `"fr"` the separator the code inserts before
`"%"` is the regular space U+0020 — identical to the generic unit separator (here before
`"km"`) — and not a hairline space. -/
theorem blackBeforeUnit_counterexample :
    blackBeforeUnit "fr" "%" = " " ∧ blackBeforeUnit "fr" "%" ≠ hairSpace ∧
    blackBeforeUnit "fr" "km" = " " ∧ blackBeforeUnit "fr" "%" = blackBeforeUnit "fr" "km" := by
  refine ⟨rfl, ?_, rfl, rfl⟩
  decide

/-- Claim C8, amended: the separator is a regular space U+0020 before `"%"` exactly when
the language is one of {cs, de, fi, fr, sk, sv} (the same character as the generic unit
separator) and empty for every other language; always empty before `"°"`; a single regular
space before any other unit — and `createItem` places that separator between the value and
the unit. -/
theorem blackBeforeUnit_rules (lang unit : String) :
    blackBeforeUnit lang "°" = "" ∧
    (lang ∈ ["cs", "de", "fi", "fr", "sk", "sv"] → blackBeforeUnit lang "%" = " ") ∧
    (lang ∉ ["cs", "de", "fi", "fr", "sk", "sv"] → blackBeforeUnit lang "%" = "") ∧
    (unit ≠ "°" → unit ≠ "%" → blackBeforeUnit lang unit = " ") ∧
    (∀ localize : String → String, ∀ label value secondValue : String, unit ≠ "" →
      (createItem localize lang label value unit secondValue).value
        = value ++ blackBeforeUnit lang unit ++ unit) := by
  refine ⟨rfl, ?_, ?_, ?_, ?_⟩
  · intro h
    unfold blackBeforeUnit
    rw [if_neg (by decide), if_pos rfl, if_pos h]
  · intro h
    unfold blackBeforeUnit
    rw [if_neg (by decide), if_pos rfl, if_neg h]
  · intro h1 h2
    unfold blackBeforeUnit
    rw [if_neg h1, if_neg h2]
  · intro localize label value secondValue h
    unfold createItem
    simp only [if_neg h]
    rw [String.append_assoc]

/-- Witness for the amended C8: language `"fr"` gets a space before `"%"`, language
`"en"` does not. -/
theorem blackBeforeUnit_rules_witness :
    blackBeforeUnit "fr" "%" = " " ∧ blackBeforeUnit "en" "%" = "" :=
  ⟨(blackBeforeUnit_rules "fr" "%").2.1 (by decide),
   (blackBeforeUnit_rules "en" "%").2.2.1 (by decide)⟩

/-- `createMoonTime` (moon.ts lines 85-98): a time item whose value is the formatted
wall-clock time and whose second value is the localized relative-time text. The
relative-time bucketing (`formatRelativeTime` plus localization) is the external
collaborator abstracted as `localizeRel`; the unit argument is the empty string, so no
separator or unit is appended. -/
def createMoonTime (localize : String → String) (lang : String)
    (formatTime : Int → String) (localizeRel : Int → String)
    (key : String) (time : Int) : MoonDataItem :=
  createItem localize lang key (formatTime time) "" (localizeRel time)

/-- Modelled from the spec: `convertKmToMiles` (src/utils/helpers.ts, not included under
src/) is the linear km→mi conversion with factor 0.621371 when `useMiles` is set and the
identity otherwise. -/
def convertKmToMiles (km : ℚ) (useMiles : Bool) : ℚ :=
  if useMiles then km * (621371 / 1000000) else km

/-- The `MoonData` snapshot (moon.ts lines 116-153): the ten named display items; the
highest-transit item is optional. -/
structure MoonData where
  moonFraction : MoonDataItem
  moonAge : MoonDataItem
  moonRise : MoonDataItem
  moonSet : MoonDataItem
  moonHighest : Option MoonDataItem
  distance : MoonDataItem
  azimuthDegress : MoonDataItem
  altitudeDegrees : MoonDataItem
  nextFullMoon : MoonDataItem
  nextNewMoon : MoonDataItem

/-- `moonData` getter (moon.ts lines 116-153). `localize` is the localization table,
`formatNumber` the locale-aware number formatter applied to the `toFixed(2)` output,
`shortTime` the `toLocaleDateString` weekday/month/day formatter, `formatTime` the
wall-clock formatter and `localizeRel` the localized relative-time text — all external
collaborators passed as parameters. `moonHighest` is built only when the source supplies
a highest-transit instant. -/
def moonData (localize : String → String) (formatNumber : ℚ → String)
    (shortTime : Int → String) (formatTime : Int → String) (localizeRel : Int → String)
    (lang : String) (useMiles : Bool) (d : IMoonData) (times : IMoonTimes) : MoonData :=
  let moonFraction := formatNumber (toFixed2 (d.illumination.fraction * 100))
  let moonAge := formatNumber (toFixed2 (d.illumination.phaseValue * (2953 / 100)))
  let distanceV := formatNumber (toFixed2 (convertKmToMiles d.distance useMiles))
  let azimuth := formatNumber (toFixed2 d.azimuthDegrees)
  let altitude := formatNumber (toFixed2 d.altitudeDegrees)
  { moonFraction := createItem localize lang "illumination" moonFraction "%" ""
    moonAge := createItem localize lang "moonAge" moonAge (localize "card.relativeTime.days") ""
    moonRise := createMoonTime localize lang formatTime localizeRel "moonRise" times.rise
    moonSet := createMoonTime localize lang formatTime localizeRel "moonSet" times.set
    moonHighest := times.highest.map
      (fun h => createMoonTime localize lang formatTime localizeRel "moonHigh" h)
    distance := createItem localize lang "distance" distanceV
      (if useMiles then "mi" else "km") ""
    azimuthDegress := createItem localize lang "azimuth" azimuth "°" ""
    altitudeDegrees := createItem localize lang "altitude" altitude "°" ""
    nextFullMoon := createItem localize lang "fullMoon"
      (shortTime d.illumination.next.fullMoon) "" ""
    nextNewMoon := createItem localize lang "newMoon"
      (shortTime d.illumination.next.newMoon) "" "" }

/-- Claim C7: when the astronomical source supplies no highest-transit instant, the
snapshot omits the transit item entirely (`none`, not a placeholder); when a transit
instant is present, the corresponding item is included. -/
theorem moonHighest_absent_propagates (localize : String → String) (formatNumber : ℚ → String)
    (shortTime : Int → String) (formatTime : Int → String) (localizeRel : Int → String)
    (lang : String) (useMiles : Bool) (d : IMoonData) (times : IMoonTimes) :
    (times.highest = none →
      (moonData localize formatNumber shortTime formatTime localizeRel
        lang useMiles d times).moonHighest = none) ∧
    (∀ t : Int, times.highest = some t →
      (moonData localize formatNumber shortTime formatTime localizeRel
        lang useMiles d times).moonHighest
        = some (createMoonTime localize lang formatTime localizeRel "moonHigh" t)) := by
  constructor
  · intro h
    unfold moonData
    simp only [h, Option.map_none']
  · intro t h
    unfold moonData
    simp only [h, Option.map_some']

/-- A concrete raw sample used by the witnesses below. -/
def sampleMoonData : IMoonData :=
  { distance := 384400, azimuthDegrees := 180, altitudeDegrees := 45,
    zenithAngle := 1, parallacticAngle := 0,
    illumination := { fraction := 1/2, phaseValue := 1/2,
                      next := { fullMoon := 0, newMoon := 0 } } }

/-- Witness for C7: with no transit instant supplied, the concrete snapshot has no
transit item; with one supplied, it has the corresponding item. -/
theorem moonHighest_absent_propagates_witness :
    (moonData id toString toString toString toString "en" false sampleMoonData
      { rise := 0, set := 0, highest := none }).moonHighest = none ∧
    (moonData id toString toString toString toString "en" false sampleMoonData
      { rise := 0, set := 0, highest := some 7 }).moonHighest
      = some (createMoonTime id "en" toString toString "moonHigh" 7) :=
  ⟨(moonHighest_absent_propagates id toString toString toString toString "en" false
      sampleMoonData { rise := 0, set := 0, highest := none }).1 rfl,
   (moonHighest_absent_propagates id toString toString toString toString "en" false
      sampleMoonData { rise := 0, set := 0, highest := some 7 }).2 7 rfl⟩

/-- Claim C9: the distance conversion is `km * 0.621371` when `useMiles` is set and the
identity otherwise, exactly (no rounding at conversion time); 384400 km convert to within
±1 of 238855 miles; and the snapshot rounds to 2 decimals only at formatting time — the
formatted distance value is the number formatter applied to `toFixed2` of the raw
conversion output, followed by the regular-space separator and the unit. -/
theorem convertKmToMiles_correct :
    (∀ km : ℚ, convertKmToMiles km true = km * (621371 / 1000000) ∧
      convertKmToMiles km false = km) ∧
    |convertKmToMiles 384400 true - 238855| ≤ 1 ∧
    (∀ (localize : String → String) (formatNumber : ℚ → String)
        (shortTime formatTime localizeRel : Int → String)
        (lang : String) (useMiles : Bool) (d : IMoonData) (times : IMoonTimes),
      (moonData localize formatNumber shortTime formatTime localizeRel
        lang useMiles d times).distance.value
        = formatNumber (toFixed2 (convertKmToMiles d.distance useMiles)) ++ " " ++
          (if useMiles then "mi" else "km")) := by
  refine ⟨fun km => ⟨rfl, rfl⟩, ?_, ?_⟩
  · unfold convertKmToMiles
    rw [abs_le]
    constructor <;> norm_num
  · intro localize formatNumber shortTime formatTime localizeRel lang useMiles d times
    unfold moonData createItem
    cases useMiles <;> simp [blackBeforeUnit, String.append_assoc]

/-- JS object property assignment `result[key] = value` on a string-keyed object: an
existing key keeps its position and gets the new value, a fresh key is appended (JS
string-keyed property order is insertion order). -/
def insertKV (m : List (String × ℚ)) (k : String) (v : ℚ) : List (String × ℚ) :=
  if m.any (fun p => p.1 == k) then m.map (fun p => if p.1 == k then (k, v) else p)
  else m ++ [(k, v)]

/-- Inserting a key absent from the map appends the pair. -/
theorem insertKV_fresh (m : List (String × ℚ)) (k : String) (v : ℚ)
    (h : ∀ p ∈ m, p.1 ≠ k) : insertKV m k v = m ++ [(k, v)] := by
  unfold insertKV
  rw [if_neg]
  simp only [List.any_eq_true, beq_iff_eq, not_exists, not_and]
  exact h

/-- Folding pairs with pairwise-distinct keys, all fresh for the accumulator, appends
them all in order. -/
theorem foldl_insertKV_pairs (pairs : List (String × ℚ)) (m : List (String × ℚ))
    (h1 : (pairs.map Prod.fst).Nodup)
    (h2 : ∀ q ∈ pairs, ∀ p ∈ m, p.1 ≠ q.1) :
    pairs.foldl (fun acc q => insertKV acc q.1 q.2) m = m ++ pairs := by
  induction pairs generalizing m with
  | nil => simp
  | cons hd tl ih =>
    simp only [List.foldl_cons]
    rw [insertKV_fresh m hd.1 hd.2 (fun p hp => h2 hd (by simp) p hp), Prod.mk.eta]
    rw [ih (m ++ [hd]) ?nodup ?fresh]
    case nodup =>
      simp only [List.map_cons, List.nodup_cons] at h1
      exact h1.2
    case fresh =>
      intro q hq p hp
      rcases List.mem_append.mp hp with hp | hp
      · exact h2 q (by simp [hq]) p hp
      · have hph : p = hd := by simpa using hp
        simp only [List.map_cons, List.nodup_cons] at h1
        intro hcontra
        exact h1.1 (by
          rw [hph] at hcontra
          rw [hcontra]
          exact List.mem_map.mpr ⟨q, hq, rfl⟩)
    rw [List.append_assoc]
    rfl

/-- `_getAltituteData` (moon.ts lines 211-221): for `i` in 0..47, sample the altitude at
`startTime + i*30*60*1000` milliseconds, round it to 2 decimals, and store it in a JS
object keyed by the formatted wall-clock label (`insertKV` models the property
assignment). `formatTime` abstracts `this.formatTime` and `alt` abstracts
`SunCalc.getMoonPosition(time, lat, lon).altitudeDegrees`. -/
def _getAltituteData (formatTime : Int → String) (alt : Int → ℚ) (startTime : Int) :
    List (String × ℚ) :=
  (List.range 48).foldl
    (fun result (i : ℕ) =>
      insertKV result (formatTime (startTime + i * 30 * 60 * 1000))
        (toFixed2 (alt (startTime + i * 30 * 60 * 1000)))) []

/-- When the 48 wall-clock labels are pairwise distinct, the profile is exactly the
ordered list of the 48 label/altitude pairs. -/
theorem getAltituteData_eq (formatTime : Int → String) (alt : Int → ℚ) (startTime : Int)
    (hinj : ∀ i : ℕ, i < 48 → ∀ j : ℕ, j < 48 →
      formatTime (startTime + i * 30 * 60 * 1000)
        = formatTime (startTime + j * 30 * 60 * 1000) → i = j) :
    _getAltituteData formatTime alt startTime
      = (List.range 48).map (fun i : ℕ =>
          (formatTime (startTime + i * 30 * 60 * 1000),
           toFixed2 (alt (startTime + i * 30 * 60 * 1000)))) := by
  have hkeys : (((List.range 48).map (fun i : ℕ =>
      (formatTime (startTime + i * 30 * 60 * 1000),
       toFixed2 (alt (startTime + i * 30 * 60 * 1000))))).map Prod.fst).Nodup := by
    rw [List.map_map]
    apply List.Nodup.map_on ?_ (List.nodup_range 48)
    intro x hx y hy hxy
    exact hinj x (List.mem_range.mp hx) y (List.mem_range.mp hy) hxy
  have hfold := foldl_insertKV_pairs
    ((List.range 48).map (fun i : ℕ =>
      (formatTime (startTime + i * 30 * 60 * 1000),
       toFixed2 (alt (startTime + i * 30 * 60 * 1000))))) [] hkeys (by simp)
  rw [List.foldl_map, List.nil_append] at hfold
  exact hfold

/-- The chart-relevant fields of the `todayData` getter (moon.ts lines 173-197). The
remaining fields (`time`, `moonPhase`, `lang`) pass external collaborator outputs through
unchanged and carry no computation. -/
structure TodayDataContent where
  altitude : List (String × ℚ)
  timeLabels : List String
  altitudeData : List ℚ
  sugestedYMax : ℤ
  sugestedYMin : ℚ

/-- `todayData` getter (moon.ts lines 173-197): the altitude profile from the day start,
its labels (`Object.keys`) and values (`Object.values`), and the chart bounds
`Math.ceil(Math.max(...values) + 10)` and `Math.min(...values) - 10`. -/
def todayData (formatTime : Int → String) (alt : Int → ℚ) (startTime : Int) :
    TodayDataContent :=
  { altitude := _getAltituteData formatTime alt startTime
    timeLabels := (_getAltituteData formatTime alt startTime).map Prod.fst
    altitudeData := (_getAltituteData formatTime alt startTime).map Prod.snd
    sugestedYMax := ⌈jsMax ((_getAltituteData formatTime alt startTime).map Prod.snd) + 10⌉
    sugestedYMin := jsMin ((_getAltituteData formatTime alt startTime).map Prod.snd) - 10 }

/-- Modelled from the spec: `formatedTime` (src/utils/helpers.ts, not included under
src/) formats an instant (epoch milliseconds) as its wall-clock label per the active
12/24-hour setting: `H:MM` in 24-hour mode, `H:MM AM/PM` in 12-hour mode. -/
def formatedTime (time : Int) (amPm : Bool) : String :=
  let minutesOfDay := ((time / 60000) % 1440).toNat
  let h := minutesOfDay / 60
  let m := minutesOfDay % 60
  let mm := (if m < 10 then "0" else "") ++ toString m
  if amPm then
    toString (if h % 12 = 0 then 12 else h % 12) ++ ":" ++ mm ++
      (if h < 12 then " AM" else " PM")
  else
    toString h ++ ":" ++ mm

/-- Claim C1: for every day start and any wall-clock labelling that keeps the 48 sample
instants apart, the daily altitude profile contains exactly 48 samples, and sample `i`
(for `i` in 0..47) is taken at `dayStart + i*30` minutes: entry `i` of the profile is
the label/altitude pair of instant `dayStart + i*30*60*1000` ms. -/
theorem dailyAltitudeProfile_48_samples (formatTime : Int → String) (alt : Int → ℚ)
    (startTime : Int)
    (hinj : ∀ i : ℕ, i < 48 → ∀ j : ℕ, j < 48 →
      formatTime (startTime + i * 30 * 60 * 1000)
        = formatTime (startTime + j * 30 * 60 * 1000) → i = j) :
    (_getAltituteData formatTime alt startTime).length = 48 ∧
    (∀ i : ℕ, i < 48 → (_getAltituteData formatTime alt startTime).get? i
      = some (formatTime (startTime + i * 30 * 60 * 1000),
              toFixed2 (alt (startTime + i * 30 * 60 * 1000)))) := by
  rw [getAltituteData_eq formatTime alt startTime hinj]
  constructor
  · rw [List.length_map, List.length_range]
  · intro i hi
    rw [List.get?_map, List.get?_range hi]
    rfl

/-- Witness for C1: the spec-modelled 24-hour labelling at day start 0 keeps the 48
instants apart, and the profile then has exactly 48 samples. -/
theorem dailyAltitudeProfile_48_samples_witness :
    (_getAltituteData (fun t => formatedTime t false) (fun _ => 0) 0).length = 48 :=
  (dailyAltitudeProfile_48_samples (fun t => formatedTime t false) (fun _ => 0) 0
    (by decide)).1

/-- Claim C6: each recorded altitude of the daily profile is the sampled altitude rounded
to 2 decimals, and the chart bounds satisfy `sugestedYMax = ceil(max(altitudes) + 10)`
and `sugestedYMin = min(altitudes) - 10` over the recorded altitudes. -/
theorem dailyAltitudeProfile_bounds (formatTime : Int → String) (alt : Int → ℚ)
    (startTime : Int)
    (hinj : ∀ i : ℕ, i < 48 → ∀ j : ℕ, j < 48 →
      formatTime (startTime + i * 30 * 60 * 1000)
        = formatTime (startTime + j * 30 * 60 * 1000) → i = j) :
    (todayData formatTime alt startTime).altitudeData
      = (List.range 48).map (fun i : ℕ => toFixed2 (alt (startTime + i * 30 * 60 * 1000))) ∧
    (todayData formatTime alt startTime).sugestedYMax
      = ⌈jsMax ((todayData formatTime alt startTime).altitudeData) + 10⌉ ∧
    (todayData formatTime alt startTime).sugestedYMin
      = jsMin ((todayData formatTime alt startTime).altitudeData) - 10 := by
  unfold todayData
  rw [getAltituteData_eq formatTime alt startTime hinj]
  refine ⟨?_, rfl, rfl⟩
  rw [List.map_map]
  rfl

/-- Witness for C6: the concrete profile of `dailyAltitudeProfile_48_samples_witness`
satisfies the chart-bound equations. -/
theorem dailyAltitudeProfile_bounds_witness :
    (todayData (fun t => formatedTime t false) (fun _ => 0) 0).sugestedYMax
      = ⌈jsMax ((todayData (fun t => formatedTime t false) (fun _ => 0) 0).altitudeData)
          + 10⌉ ∧
    (todayData (fun t => formatedTime t false) (fun _ => 0) 0).sugestedYMin
      = jsMin ((todayData (fun t => formatedTime t false) (fun _ => 0) 0).altitudeData)
          - 10 :=
  ⟨(dailyAltitudeProfile_bounds (fun t => formatedTime t false) (fun _ => 0) 0
      (by decide)).2.1,
   (dailyAltitudeProfile_bounds (fun t => formatedTime t false) (fun _ => 0) 0
      (by decide)).2.2⟩
